import Mathlib

/-!
Shallow embedding of the physical-model orchestration layer of
`android/android-emu/android/physics/PhysicalModel.cpp`.

Floating-point `float` values are modelled as exact rationals (`ℚ`);
the machine `long` measurement counters as `Nat` (they are only ever
incremented).  The two leaf models (`InertialModel`,
`AmbientEnvironment`) and the `SENSORS_LIST` / `PHYSICAL_PARAMETERS_LIST`
macro headers are external to the analyzed source; where the embedding
needs them they are modelled from the spec and marked as such.
-/

/-- A 3-vector of exact values, modelling `vec3` / `glm::vec3`. -/
structure Vec3 where
  x : ℚ
  y : ℚ
  z : ℚ
deriving DecidableEq, Repr

def vzero : Vec3 := ⟨0, 0, 0⟩

def vadd (a b : Vec3) : Vec3 := ⟨a.x + b.x, a.y + b.y, a.z + b.z⟩

def vsub (a b : Vec3) : Vec3 := ⟨a.x - b.x, a.y - b.y, a.z - b.z⟩

def vscale (c : ℚ) (a : Vec3) : Vec3 := ⟨c * a.x, c * a.y, c * a.z⟩

/-- Cross product, modelling `glm::cross`. -/
def vcross (a b : Vec3) : Vec3 :=
  ⟨a.y * b.z - a.z * b.y, a.z * b.x - a.x * b.z, a.x * b.y - a.y * b.x⟩

/-- A quaternion (w scalar part), modelling `glm::quat`. -/
structure Quat where
  w : ℚ
  x : ℚ
  y : ℚ
  z : ℚ
deriving DecidableEq, Repr

/-- Quaternion conjugate, modelling `glm::conjugate`. -/
def quatConjugate (q : Quat) : Quat := ⟨q.w, -q.x, -q.y, -q.z⟩

/-- Quaternion-vector rotation, modelling glm `operator*(quat, vec3)`:
`uv = cross(q.xyz, v); uuv = cross(q.xyz, uv); v + (uv * q.w + uuv) * 2`. -/
def quatRotate (q : Quat) (v : Vec3) : Vec3 :=
  let qv : Vec3 := ⟨q.x, q.y, q.z⟩
  let uv := vcross qv v
  let uuv := vcross qv uv
  vadd v (vscale 2 (vadd (vscale q.w uv) uuv))

/-- The physical parameters of `PHYSICAL_PARAMETERS_LIST`.
Modelled from the spec: the macro header is not part of the analyzed
source; the spec lists Position, Velocity, Rotation, AmbientMotion,
MagneticField, Temperature, Proximity, Light, Pressure, Humidity. -/
inductive PhysicalParameter where
  | Position
  | Velocity
  | Rotation
  | AmbientMotion
  | MagneticField
  | Temperature
  | Proximity
  | Light
  | Pressure
  | Humidity
deriving DecidableEq, Repr

/-- The sensors of `SENSORS_LIST`.
Modelled from the spec: the macro header is not part of the analyzed
source; the spec lists these eleven sensor kinds. -/
inductive AndroidSensor where
  | Accelerometer
  | Gyroscope
  | Magnetometer
  | MagnetometerUncalibrated
  | GyroscopeUncalibrated
  | Orientation
  | Temperature
  | Proximity
  | Light
  | Pressure
  | Humidity
deriving DecidableEq, Repr

/-- Interpolation modes `PHYSICAL_INTERPOLATION_STEP` / `..._SMOOTH`. -/
inductive PhysicalInterpolation where
  | step
  | smooth
deriving DecidableEq, Repr

/-- Value facet selector `PARAMETER_VALUE_TYPE_*`. -/
inductive ParameterValueType where
  | current
  | target
  | currentNoAmbientMotion
deriving DecidableEq, Repr

/-- The two value shapes used by parameters and sensors (`vec3` / `float`). -/
inductive VKind where
  | vec3
  | scalarF
deriving DecidableEq, Repr

/-- A typed value (either a `vec3` or a `float`). -/
inductive PValue where
  | vec (v : Vec3)
  | scalar (q : ℚ)
deriving DecidableEq, Repr

/-- Project a `Vec3` out of a `PValue` (zero on shape mismatch, which is
unreachable for well-formed states: the C++ members are statically typed). -/
def PValue.vec3OrZero : PValue → Vec3
  | .vec v => v
  | .scalar _ => vzero

/-- Shape-correct zero value of a kind, modelling the `{0.f}` member
initializers. -/
def defaultPV : VKind → PValue
  | .vec3 => .vec vzero
  | .scalarF => .scalar 0

/-- Value kind of each physical parameter (the `w` column of
`PHYSICAL_PARAMETER_(x,y,z,w)`): 3-vector or scalar float. -/
def paramKind : PhysicalParameter → VKind
  | .Position => .vec3
  | .Velocity => .vec3
  | .Rotation => .vec3
  | .AmbientMotion => .scalarF
  | .MagneticField => .vec3
  | .Temperature => .scalarF
  | .Proximity => .scalarF
  | .Light => .scalarF
  | .Pressure => .scalarF
  | .Humidity => .scalarF

/-- Value kind of each sensor (the `v` column of `SENSOR_(x,y,z,v,w)`). -/
def sensorKind : AndroidSensor → VKind
  | .Accelerometer => .vec3
  | .Gyroscope => .vec3
  | .Magnetometer => .vec3
  | .MagnetometerUncalibrated => .vec3
  | .GyroscopeUncalibrated => .vec3
  | .Orientation => .vec3
  | .Temperature => .scalarF
  | .Proximity => .scalarF
  | .Light => .scalarF
  | .Pressure => .scalarF
  | .Humidity => .scalarF

/-- Fixed enumeration order of the parameters, used by the
count-prefixed snapshot layout.  Modelled from the spec (the enum header
is not in the analyzed source); every claim below is insensitive to the
particular order, only to save and load agreeing on it. -/
def paramOrder : List PhysicalParameter :=
  [.Position, .Velocity, .Rotation, .AmbientMotion, .MagneticField,
   .Temperature, .Proximity, .Light, .Pressure, .Humidity]

/-- Fixed enumeration order of the sensors (see `paramOrder`). -/
def sensorOrder : List AndroidSensor :=
  [.Accelerometer, .Gyroscope, .Magnetometer, .MagnetometerUncalibrated,
   .GyroscopeUncalibrated, .Orientation, .Temperature, .Proximity,
   .Light, .Pressure, .Humidity]

/-- `MAX_PHYSICAL_PARAMETERS`. -/
def MAX_PHYSICAL_PARAMETERS : Int := 10

/-- `MAX_SENSORS`. -/
def MAX_SENSORS : Int := 11

/-- The errno constant `EIO` (the code returns `-EIO`). -/
def eioErrno : Int := 5

/-- Current/target facets of one physical parameter.
Modelled from the spec: the leaf models (InertialModel /
AmbientEnvironment) are external; per the spec their target contract is
`setTarget(value, mode)` / `get(queryKind)` where Step sets
current = target = value immediately and Smooth sets the target only. -/
structure ParamFacets where
  current : PValue
  target : PValue
deriving DecidableEq, Repr

/-- Leaf-model target update.  Modelled from the spec: Step sets the
current value immediately (current = target), Smooth sets a goal value
approached as time advances (current unchanged at the instant). -/
def applyTargetFacets (mode : PhysicalInterpolation) (v : PValue)
    (f : ParamFacets) : ParamFacets :=
  match mode with
  | .step => ⟨v, v⟩
  | .smooth => ⟨f.current, v⟩

/-- Raw derived-state getters consumed from the leaf models by the
sensor derivation rules (`getRotation`, `getAcceleration`,
`getRotationalVelocity`, `getGravity`).  Modelled from the spec: the
leaf models are external; these are opaque state components here. -/
structure DerivedState where
  rotation : Quat
  acceleration : Vec3
  rotationalVelocity : Vec3
  gravity : Vec3
deriving DecidableEq, Repr

/-- The ground-truth recording stream: a `StdioStream` object wrapping a
possibly-null `FILE*` (`fopen` result).  `file = none` models a
`StdioStream` constructed from a failed `fopen`. -/
structure GroundTruthStream where
  file : Option Unit
deriving DecidableEq, Repr

/-- Mutable state of `PhysicalModelImpl`.  The recursive mutex is not
modelled (operations are atomic steps here); the observer agent is
modelled by its attachment flag, and callback invocations are returned
as an explicit event list by each operation. -/
structure ModelState where
  params : PhysicalParameter → ParamFacets
  useOverride : AndroidSensor → Bool
  measurementId : AndroidSensor → Nat
  overrideVal : AndroidSensor → PValue
  isPhysicalStateChanging : Bool
  agentAttached : Bool
  groundTruthStream : Option GroundTruthStream
  modelTimeNs : Int
  derived : DerivedState

/-- Callback invocations on the attached `QAndroidPhysicalStateAgent`. -/
inductive Callback where
  | changing
  | stabilized
  | targetChanged
deriving DecidableEq, Repr, BEq

/-- Pointwise function update over a decidable domain. -/
def updFun {α β : Type} [DecidableEq α] (f : α → β) (a : α) (b : β) : α → β :=
  fun x => if x = a then b else f x

/-- `PhysicalModelImpl::physicalStateChanging`: on a settled-to-changing
transition set the flag and (if an agent is attached) invoke its
`onPhysicalStateChanging` callback; a no-op while already changing. -/
def physicalStateChanging (s : ModelState) : ModelState × List Callback :=
  if s.isPhysicalStateChanging then (s, [])
  else ({ s with isPhysicalStateChanging := true },
        if s.agentAttached then [.changing] else [])

/-- `PhysicalModelImpl::physicalStateStabilized`: bump every sensor's
measurement id, clear the changing flag, invoke `onPhysicalStateStabilized`. -/
def physicalStateStabilized (s : ModelState) : ModelState × List Callback :=
  ({ s with measurementId := fun sn => s.measurementId sn + 1,
            isPhysicalStateChanging := false },
   if s.agentAttached then [.stabilized] else [])

/-- `PhysicalModelImpl::targetStateChanged`: reset every sensor override
flag, invoke `onTargetStateChanged`. -/
def targetStateChanged (s : ModelState) : ModelState × List Callback :=
  ({ s with useOverride := fun _ => false },
   if s.agentAttached then [.targetChanged] else [])

/-- `PhysicalModelImpl::setTargetInternalX` for every parameter `X`: the
ten macro-generated functions share this exact shape — call
`physicalStateChanging`, forward the value to the owning leaf model
under the lock, then call `targetStateChanged`. -/
def setTargetInternal (p : PhysicalParameter) (v : PValue)
    (mode : PhysicalInterpolation) (s : ModelState) :
    ModelState × List Callback :=
  let r1 := physicalStateChanging s
  let newFacets := applyTargetFacets mode v (r1.1.params p)
  let s2 := { r1.1 with params := updFun r1.1.params p newFacets }
  let r3 := targetStateChanged s2
  (r3.1, r1.2 ++ r3.2)

/-- `PhysicalModelImpl::getParameterX(parameterValueType)`: read a value
facet from the owning leaf model.  The current-no-ambient-motion facet
is modelled as the current facet (ambient-motion jitter of the external
inertial model is not modelled). -/
def getParameter (p : PhysicalParameter) (t : ParameterValueType)
    (s : ModelState) : PValue :=
  match t with
  | .current => (s.params p).current
  | .target => (s.params p).target
  | .currentNoAmbientMotion => (s.params p).current

/-- `PhysicalModelImpl::setOverride` (template helper): signal
`physicalStateChanging` first, then under the lock mark the slot active,
increment that sensor's measurement id and store the value. -/
def setOverride (sensor : AndroidSensor) (v : PValue) (s : ModelState) :
    ModelState × List Callback :=
  let r1 := physicalStateChanging s
  let newIds := updFun r1.1.measurementId sensor (r1.1.measurementId sensor + 1)
  ({ r1.1 with useOverride := updFun r1.1.useOverride sensor true,
               measurementId := newIds,
               overrideVal := updFun r1.1.overrideVal sensor v }, r1.2)

/-- `PhysicalModelImpl::getSensorValue` (template helper): if the
override is active return the stored value and id verbatim; otherwise,
if the physical state is changing, increment the id first, then return
the physically derived value with the (possibly bumped) id. -/
def getSensorValue (sensor : AndroidSensor)
    (physicalGetter : ModelState → PValue) (s : ModelState) :
    PValue × Nat × ModelState :=
  if s.useOverride sensor then
    (s.overrideVal sensor, s.measurementId sensor, s)
  else
    let bumpedIds := updFun s.measurementId sensor (s.measurementId sensor + 1)
    let s1 := if s.isPhysicalStateChanging then
        { s with measurementId := bumpedIds }
      else s
    (physicalGetter s1, s1.measurementId sensor, s1)

/-- `PhysicalModelImpl::getPhysicalAccelerometer`: inverse-rotated
(specific force minus gravity). -/
def getPhysicalAccelerometer (s : ModelState) : PValue :=
  .vec (quatRotate (quatConjugate s.derived.rotation)
    (vsub s.derived.acceleration s.derived.gravity))

/-- `PhysicalModelImpl::getPhysicalGyroscope`: inverse-rotated
rotational velocity. -/
def getPhysicalGyroscope (s : ModelState) : PValue :=
  .vec (quatRotate (quatConjugate s.derived.rotation)
    s.derived.rotationalVelocity)

/-- `PhysicalModelImpl::getPhysicalMagnetometer`: inverse-rotated
ambient magnetic field. -/
def getPhysicalMagnetometer (s : ModelState) : PValue :=
  .vec (quatRotate (quatConjugate s.derived.rotation)
    (PValue.vec3OrZero (s.params .MagneticField).current))

/-- `PhysicalModelImpl::getPhysicalMagnetometerUncalibrated`:
inverse-rotated ambient magnetic field (the body is textually identical
to the calibrated getter's). -/
def getPhysicalMagnetometerUncalibrated (s : ModelState) : PValue :=
  .vec (quatRotate (quatConjugate s.derived.rotation)
    (PValue.vec3OrZero (s.params .MagneticField).current))

/-- `PhysicalModelImpl::getPhysicalGyroscopeUncalibrated`. -/
def getPhysicalGyroscopeUncalibrated (s : ModelState) : PValue :=
  .vec (quatRotate (quatConjugate s.derived.rotation)
    s.derived.rotationalVelocity)

/-- Ambient scalar pass-through getters (`getPhysicalTemperature` etc.)
read the leaf model's current value. -/
def getPhysicalTemperature (s : ModelState) : PValue :=
  (s.params .Temperature).current

def getPhysicalProximity (s : ModelState) : PValue :=
  (s.params .Proximity).current

def getPhysicalLight (s : ModelState) : PValue :=
  (s.params .Light).current

def getPhysicalPressure (s : ModelState) : PValue :=
  (s.params .Pressure).current

def getPhysicalHumidity (s : ModelState) : PValue :=
  (s.params .Humidity).current

/-- `PhysicalModelImpl::getPhysicalOrientation` is
`glm::eulerAngles(getRotation())`.  The glm Euler extraction is an
external trigonometric library function; it is passed in as an explicit
parameter `euler` wherever the full sensor dispatch is needed (no claim
depends on its value). -/
def getPhysicalOrientation (euler : Quat → Vec3) (s : ModelState) : PValue :=
  .vec (euler s.derived.rotation)

/-- Dispatch of the per-sensor physical getters (`getPhysicalX`). -/
def physicalGetterOf (euler : Quat → Vec3) :
    AndroidSensor → ModelState → PValue
  | .Accelerometer => getPhysicalAccelerometer
  | .Gyroscope => getPhysicalGyroscope
  | .Magnetometer => getPhysicalMagnetometer
  | .MagnetometerUncalibrated => getPhysicalMagnetometerUncalibrated
  | .GyroscopeUncalibrated => getPhysicalGyroscopeUncalibrated
  | .Orientation => getPhysicalOrientation euler
  | .Temperature => getPhysicalTemperature
  | .Proximity => getPhysicalProximity
  | .Light => getPhysicalLight
  | .Pressure => getPhysicalPressure
  | .Humidity => getPhysicalHumidity

/-- `PhysicalModelImpl::getX` for every sensor `X`: the macro-generated
getters all call `getSensorValue` with that sensor's override slot and
physical getter. -/
def getSensor (euler : Quat → Vec3) (sn : AndroidSensor) (s : ModelState) :
    PValue × Nat × ModelState :=
  getSensorValue sn (physicalGetterOf euler sn) s

/-- `PhysicalModelImpl::setTargetX` for every parameter `X`: generate an
automation event for the attached sink (a pure side output, no model
state change), then run the internal setter. -/
def setTarget (p : PhysicalParameter) (v : PValue)
    (mode : PhysicalInterpolation) (s : ModelState) :
    ModelState × List Callback :=
  setTargetInternal p v mode s

/-- `PhysicalModelImpl::setCurrentTime`: store the time, advance both
leaf models (external; their stability results are oracle inputs here),
and if both are stable while the state was changing, stabilize. -/
def setCurrentTime (timeNs : Int) (inertialStable ambientStable : Bool)
    (s : ModelState) : ModelState × List Callback :=
  let s1 := { s with modelTimeNs := timeNs }
  if inertialStable && ambientStable && s1.isPhysicalStateChanging then
    physicalStateStabilized s1
  else (s1, [])

/-- An item of the snapshot byte stream, at the granularity the code
reads and writes it (`stream_put_be32` / `stream_put_float`). -/
inductive StreamItem where
  | i32 (n : Int)
  | f32 (q : ℚ)
deriving DecidableEq, Repr

/-- `stream_get_be32`: reads the next 32-bit integer.  A type-confused
or short read (never exercised by the code paths modelled here) yields 0. -/
def readBe32 : List StreamItem → Int × List StreamItem
  | .i32 n :: rest => (n, rest)
  | .f32 _ :: rest => (0, rest)
  | [] => (0, [])

/-- `stream_get_float`: reads the next float (0 on a type-confused or
short read, never exercised here). -/
def readFloat : List StreamItem → ℚ × List StreamItem
  | .f32 q :: rest => (q, rest)
  | .i32 _ :: rest => (0, rest)
  | [] => (0, [])

/-- `writeValueToStream`: a vec3 is three floats x, y, z in order, a
float is one float.  The overload is chosen by the parameter's or
sensor's static value kind; a shape mismatch cannot occur in the C++
(the members are statically typed) and encodes as zeros here. -/
def writeValueToStream (k : VKind) (pv : PValue) : List StreamItem :=
  match k, pv with
  | .vec3, .vec v => [.f32 v.x, .f32 v.y, .f32 v.z]
  | .vec3, .scalar _ => [.f32 0, .f32 0, .f32 0]
  | .scalarF, .scalar q => [.f32 q]
  | .scalarF, .vec _ => [.f32 0]

/-- `readValueFromStream`: inverse of `writeValueToStream`, reading by
the static value kind. -/
def readValueFromStream (k : VKind) (st : List StreamItem) :
    PValue × List StreamItem :=
  match k with
  | .vec3 =>
    let rx := readFloat st
    let ry := readFloat rx.2
    let rz := readFloat ry.2
    (.vec ⟨rx.1, ry.1, rz.1⟩, rz.2)
  | .scalarF =>
    let rq := readFloat st
    (.scalar rq.1, rq.2)

/-- Whether a stored value's shape matches its declared kind (always
true in the C++, where the slots are statically typed). -/
def shapeOk (k : VKind) (pv : PValue) : Bool :=
  match k, pv with
  | .vec3, .vec _ => true
  | .scalarF, .scalar _ => true
  | _, _ => false

/-- `PhysicalModelImpl::snapshotSave`: parameter count, then every
parameter's target value in enum order, then sensor count, then per
sensor a 32-bit override-active flag followed (when active) by the
override value. -/
def snapshotSave (s : ModelState) : List StreamItem :=
  .i32 MAX_PHYSICAL_PARAMETERS ::
  (paramOrder.flatMap
    (fun p => writeValueToStream (paramKind p) (s.params p).target) ++
   .i32 MAX_SENSORS ::
   sensorOrder.flatMap (fun sn =>
     .i32 (if s.useOverride sn then 1 else 0) ::
     (if s.useOverride sn then
        writeValueToStream (sensorKind sn) (s.overrideVal sn)
      else [])))

/-- Parameter-loading loop of `snapshotLoad`: for each of the first
`num_physical_parameters` parameters in enum order, read a value and
apply it via the internal setter in Step mode. -/
def loadParams : List PhysicalParameter → List StreamItem → ModelState →
    List StreamItem × ModelState × List Callback
  | [], st, s => (st, s, [])
  | p :: ps, st, s =>
    let rv := readValueFromStream (paramKind p) st
    let r1 := setTargetInternal p rv.1 .step s
    let rr := loadParams ps rv.2 r1.1
    (rr.1, rr.2.1, r1.2 ++ rr.2.2)

/-- Sensor-loading loop of `snapshotLoad`: for each of the first
`num_sensors` sensors in enum order, read the active flag; when
nonzero, read the value and apply it via the override setter. -/
def loadSensors : List AndroidSensor → List StreamItem → ModelState →
    List StreamItem × ModelState × List Callback
  | [], st, s => (st, s, [])
  | sn :: sns, st, s =>
    let rf := readBe32 st
    if rf.1 ≠ 0 then
      let rv := readValueFromStream (sensorKind sn) rf.2
      let r1 := setOverride sn rv.1 s
      let rr := loadSensors sns rv.2 r1.1
      (rr.1, rr.2.1, r1.2 ++ rr.2.2)
    else
      loadSensors sns rf.2 s

/-- `PhysicalModelImpl::snapshotLoad`: read the parameter count and fail
with `-EIO` if it exceeds `MAX_PHYSICAL_PARAMETERS` (no state touched);
otherwise load that many parameter targets in Step mode; then the same
for the sensor override section; returns 0 on success. -/
def snapshotLoad (s : ModelState) (st : List StreamItem) :
    Int × ModelState × List Callback :=
  let rn := readBe32 st
  if rn.1 > MAX_PHYSICAL_PARAMETERS then (-eioErrno, s, [])
  else
    let rp := loadParams (paramOrder.take rn.1.toNat) rn.2 s
    let rm := readBe32 rp.1
    if rm.1 > MAX_SENSORS then (-eioErrno, rp.2.1, rp.2.2)
    else
      let rs := loadSensors (sensorOrder.take rm.1.toNat) rm.2 rp.2.1
      (0, rs.2.1, rp.2.2 ++ rs.2.2)

/-- A `PhysicalModelEvent_ParameterValue` protobuf message: a repeated
float field. -/
structure ParameterValue where
  data : List ℚ
deriving DecidableEq, Repr

/-- A `PhysicalModelEvent` protobuf message: an externally-tagged
parameter type plus optional current and target values. -/
structure PhysicalModelEvent where
  type : Int
  currentValue : Option ParameterValue
  targetValue : Option ParameterValue
deriving DecidableEq, Repr

/-- `toProto`: the injective mapping from the internal parameter enum to
the proto tag (the concrete tag numbers are immaterial; only that save
and load agree on them and that unknown tags exist). -/
def toProto : PhysicalParameter → Int
  | .Position => 0
  | .Velocity => 1
  | .Rotation => 2
  | .AmbientMotion => 3
  | .MagneticField => 4
  | .Temperature => 5
  | .Proximity => 6
  | .Light => 7
  | .Pressure => 8
  | .Humidity => 9

/-- `fromProto`: maps a proto tag back to the internal enum; an unknown
tag maps to `MAX_PHYSICAL_PARAMETERS`, which the `replayEvent` switch
ignores — modelled as `none`. -/
def fromProto (tag : Int) : Option PhysicalParameter :=
  if tag = 0 then some .Position
  else if tag = 1 then some .Velocity
  else if tag = 2 then some .Rotation
  else if tag = 3 then some .AmbientMotion
  else if tag = 4 then some .MagneticField
  else if tag = 5 then some .Temperature
  else if tag = 6 then some .Proximity
  else if tag = 7 then some .Light
  else if tag = 8 then some .Pressure
  else if tag = 9 then some .Humidity
  else none

/-- `getProtoValue<vec3>`: exactly three data elements expected; a
malformed payload is logged and defaulted to zero. -/
def getProtoValueVec3 (pv : ParameterValue) : Vec3 :=
  match pv.data with
  | [a, b, c] => ⟨a, b, c⟩
  | _ => vzero

/-- `getProtoValue<float>`: exactly one data element expected; a
malformed payload is logged and defaulted to zero. -/
def getProtoValueFloat (pv : ParameterValue) : ℚ :=
  match pv.data with
  | [a] => a
  | _ => 0

/-- Kind-directed `getProtoValue`. -/
def getProtoValue (k : VKind) (pv : ParameterValue) : PValue :=
  match k with
  | .vec3 => .vec (getProtoValueVec3 pv)
  | .scalarF => .scalar (getProtoValueFloat pv)

/-- `setProtoCurrentValue` / `setProtoTargetValue` encoding of a typed
value into the repeated float field. -/
def toProtoValue : PValue → ParameterValue
  | .vec v => ⟨[v.x, v.y, v.z]⟩
  | .scalar q => ⟨[q]⟩

/-- `PhysicalModelImpl::replayEvent`: map the tag to the internal enum
(unknown tags ignored); apply a present current value via Step mode,
then a present target value via Smooth mode. -/
def replayEvent (e : PhysicalModelEvent) (s : ModelState) :
    ModelState × List Callback :=
  match fromProto e.type with
  | none => (s, [])
  | some p =>
    let r1 := match e.currentValue with
      | some v => setTargetInternal p (getProtoValue (paramKind p) v) .step s
      | none => (s, [])
    match e.targetValue with
    | some v =>
      let r2 := setTargetInternal p (getProtoValue (paramKind p) v) .smooth r1.1
      (r2.1, r1.2 ++ r2.2)
    | none => r1

/-- The position/velocity accumulator of `loadState` (the four local
vec3 variables, all initialized to zero). -/
structure PosVelAccum where
  currentPosition : Vec3
  targetPosition : Vec3
  currentVelocity : Vec3
  targetVelocity : Vec3
deriving DecidableEq, Repr

def accumZero : PosVelAccum := ⟨vzero, vzero, vzero, vzero⟩

/-- One scan step of `loadState`'s loop on a Position-tagged event. -/
def accumPosition (e : PhysicalModelEvent) (acc : PosVelAccum) : PosVelAccum :=
  let a1 := match e.currentValue with
    | some v => { acc with currentPosition := getProtoValueVec3 v }
    | none => acc
  match e.targetValue with
  | some v => { a1 with targetPosition := getProtoValueVec3 v }
  | none => a1

/-- One scan step of `loadState`'s loop on a Velocity-tagged event. -/
def accumVelocity (e : PhysicalModelEvent) (acc : PosVelAccum) : PosVelAccum :=
  let a1 := match e.currentValue with
    | some v => { acc with currentVelocity := getProtoValueVec3 v }
    | none => acc
  match e.targetValue with
  | some v => { a1 with targetVelocity := getProtoValueVec3 v }
  | none => a1

/-- The scan loop of `PhysicalModelImpl::loadState`: Position and
Velocity events update the accumulator; every other event is dispatched
immediately through `replayEvent`. -/
def loadStateScan : List PhysicalModelEvent → PosVelAccum → ModelState →
    PosVelAccum × ModelState × List Callback
  | [], acc, s => (acc, s, [])
  | e :: es, acc, s =>
    if e.type = toProto .Position then
      loadStateScan es (accumPosition e acc) s
    else if e.type = toProto .Velocity then
      loadStateScan es (accumVelocity e acc) s
    else
      let r1 := replayEvent e s
      let rr := loadStateScan es acc r1.1
      (rr.1, rr.2.1, r1.2 ++ rr.2.2)

/-- `PhysicalModelImpl::loadState`: scan all records, then apply current
position (Step), current velocity (Step), and then — if the accumulated
target velocity is nonzero — target velocity (Smooth), else target
position (Smooth). -/
def loadState (events : List PhysicalModelEvent) (s : ModelState) :
    ModelState × List Callback :=
  let rscan := loadStateScan events accumZero s
  let acc := rscan.1
  let r2 := setTargetInternal .Position (.vec acc.currentPosition) .step rscan.2.1
  let r3 := setTargetInternal .Velocity (.vec acc.currentVelocity) .step r2.1
  if acc.targetVelocity ≠ vzero then
    let r4 := setTargetInternal .Velocity (.vec acc.targetVelocity) .smooth r3.1
    (r4.1, rscan.2.2 ++ r2.2 ++ r3.2 ++ r4.2)
  else
    let r4 := setTargetInternal .Position (.vec acc.targetPosition) .smooth r3.1
    (r4.1, rscan.2.2 ++ r2.2 ++ r3.2 ++ r4.2)

/-- `PhysicalModelImpl::saveState`: one event per parameter in enum
order carrying both the current (no-ambient-motion facet) and target
values.  Pure read; the produced record list is the return value. -/
def saveState (s : ModelState) : List PhysicalModelEvent :=
  paramOrder.map (fun p =>
    { type := toProto p,
      currentValue := some (toProtoValue
        (getParameter p .currentNoAmbientMotion s)),
      targetValue := some (toProtoValue (getParameter p .target s)) })

/-- `PhysicalModelImpl::stopRecordGroundTruth`: drop the stream. -/
def stopRecordGroundTruth (s : ModelState) : ModelState :=
  { s with groundTruthStream := none }

/-- `PhysicalModelImpl::recordGroundTruth`.  `openResult` is the host
`fopen` outcome (`none` = open failed).  The code stops any existing
recording, rejects a null filename with -1, then does
`mGroundTruthStream.reset(new StdioStream(fopen(path, "wb"), kOwner))`
and checks `!mGroundTruthStream.get()` — but `new` never yields null, so
that check is the always-non-null `StdioStream` pointer, the error
branch is dead, and the function returns 0 even when `fopen` failed. -/
def recordGroundTruth (filenameGiven : Bool) (openResult : Option Unit)
    (s : ModelState) : Int × ModelState :=
  let s0 := stopRecordGroundTruth s
  if !filenameGiven then (-1, s0)
  else
    let s1 := { s0 with groundTruthStream := some ⟨openResult⟩ }
    if s1.groundTruthStream = none then (-1, s1)
    else (0, s1)

/-- The public operations driving the model, for stating trace
invariants.  Leaf-model stability outcomes of a time update are oracle
inputs (the leaf integrators are external). -/
inductive Op where
  | setCurrentTimeOp (timeNs : Int) (inertialStable ambientStable : Bool)
  | setTargetOp (p : PhysicalParameter) (v : PValue)
      (mode : PhysicalInterpolation)
  | setOverrideOp (sn : AndroidSensor) (v : PValue)
  | getSensorOp (sn : AndroidSensor)
  | snapshotSaveOp
  | snapshotLoadOp (st : List StreamItem)
  | saveStateOp
  | loadStateOp (events : List PhysicalModelEvent)
  | replayEventOp (e : PhysicalModelEvent)

/-- One public operation as a state transition with its emitted
callbacks.  `euler` is the external glm Euler extraction used by the
Orientation sensor's physical getter. -/
def step (euler : Quat → Vec3) : Op → ModelState → ModelState × List Callback
  | .setCurrentTimeOp t i a, s => setCurrentTime t i a s
  | .setTargetOp p v mode, s => setTarget p v mode s
  | .setOverrideOp sn v, s => setOverride sn v s
  | .getSensorOp sn, s => ((getSensor euler sn s).2.2, [])
  | .snapshotSaveOp, s => (s, [])
  | .snapshotLoadOp st, s =>
    let r := snapshotLoad s st
    (r.2.1, r.2.2)
  | .saveStateOp, s => (s, [])
  | .loadStateOp events, s => loadState events s
  | .replayEventOp e, s => replayEvent e s

/-- Run a sequence of operations, concatenating emitted callbacks. -/
def run (euler : Quat → Vec3) : List Op → ModelState →
    ModelState × List Callback
  | [], s => (s, [])
  | op :: ops, s =>
    let r1 := step euler op s
    let rr := run euler ops r1.1
    (rr.1, r1.2 ++ rr.2)

/-- The stability-flag trace along a run (flag after each operation). -/
def flagTrace (euler : Quat → Vec3) : List Op → ModelState → List Bool
  | [], _ => []
  | op :: ops, s =>
    let s1 := (step euler op s).1
    s1.isPhysicalStateChanging :: flagTrace euler ops s1

/-- Number of false-to-true rises along a boolean trace starting from
an initial flag value: the SETTLED-to-CHANGING transitions. -/
def risesFrom : Bool → List Bool → Nat
  | _, [] => 0
  | b, x :: xs => (if !b && x then 1 else 0) + risesFrom x xs

/-- Well-formedness: every stored value's shape matches its slot's
declared kind (automatic in the C++, where the slots are statically
typed). -/
def wellFormed (s : ModelState) : Bool :=
  paramOrder.all (fun p =>
    shapeOk (paramKind p) (s.params p).current &&
    shapeOk (paramKind p) (s.params p).target) &&
  sensorOrder.all (fun sn => shapeOk (sensorKind sn) (s.overrideVal sn))

/-- Whether all parameter targets of two states agree (decidable form
used for witness evaluation). -/
def targetsMatch (a b : ModelState) : Bool :=
  paramOrder.all (fun p => (a.params p).target = (b.params p).target)

/-- Whether all sensor override flags of two states agree. -/
def overrideFlagsMatch (a b : ModelState) : Bool :=
  sensorOrder.all (fun sn => a.useOverride sn = b.useOverride sn)

/-- Whether all sensor override values of two states agree. -/
def overrideValuesMatch (a b : ModelState) : Bool :=
  sensorOrder.all (fun sn => a.overrideVal sn = b.overrideVal sn)

/-- A concrete settled example state with an attached agent (used by the
witness theorems). -/
def exState : ModelState :=
  { params := fun p => ⟨defaultPV (paramKind p), defaultPV (paramKind p)⟩,
    useOverride := fun _ => false,
    measurementId := fun _ => 0,
    overrideVal := fun sn => defaultPV (sensorKind sn),
    isPhysicalStateChanging := false,
    agentAttached := true,
    groundTruthStream := none,
    modelTimeNs := 0,
    derived := ⟨⟨1, 0, 0, 0⟩, vzero, vzero, vzero⟩ }

/-- A concrete example state with an active override and nonzero
targets (used by the snapshot round-trip witness). -/
def exState2 : ModelState :=
  { exState with
    params := updFun exState.params .Temperature ⟨.scalar 20, .scalar 25⟩,
    useOverride := updFun exState.useOverride .Accelerometer true,
    overrideVal := updFun exState.overrideVal .Accelerometer
      (.vec ⟨1, 2, 3⟩),
    measurementId := updFun exState.measurementId .Accelerometer 4,
    isPhysicalStateChanging := true }

/-- A trivial Euler extraction used to instantiate witnesses (its value
is never relevant to any claim). -/
def eulerZero : Quat → Vec3 := fun _ => vzero

/-- Pointwise ordering of the measurement-id tables of two states. -/
def idsLe (a b : ModelState) : Prop :=
  ∀ sn, a.measurementId sn ≤ b.measurementId sn

/-- 1 when going from SETTLED to CHANGING between two states, else 0. -/
def riseIndicator (a b : ModelState) : Nat :=
  if !a.isPhysicalStateChanging && b.isPhysicalStateChanging then 1 else 0

/-- An operation preserves the agent attachment and, when an agent is
attached, emits the changing callback exactly on a settled-to-changing
transition. -/
def ChangeSpec (s : ModelState) (r : ModelState × List Callback) : Prop :=
  r.1.agentAttached = s.agentAttached ∧
  (s.agentAttached = true → r.2.count .changing = riseIndicator s r.1)

/-- `ChangeSpec` plus monotonicity of the changing flag (the operation
either leaves the flag alone or raises it), which makes the spec
composable. -/
def ChangeSpecM (s : ModelState) (r : ModelState × List Callback) : Prop :=
  ChangeSpec s r ∧
  (r.1.isPhysicalStateChanging = s.isPhysicalStateChanging ∨
   r.1.isPhysicalStateChanging = true)

/-- Whether a record is tagged as a Position or Velocity event (the two
kinds `loadState` defers). -/
def isPosOrVel (e : PhysicalModelEvent) : Bool :=
  decide (e.type = toProto .Position) || decide (e.type = toProto .Velocity)

/-- The spec-side description of the immediate dispatch: apply
`replayEvent` to each record in encounter order. -/
def applyOtherEvents : List PhysicalModelEvent → ModelState →
    ModelState × List Callback
  | [], s => (s, [])
  | e :: es, s =>
    let r1 := replayEvent e s
    let rr := applyOtherEvents es r1.1
    (rr.1, r1.2 ++ rr.2)

/-- One accumulation step over a record (identity on records that are
neither Position nor Velocity). -/
def accumOneEvent (acc : PosVelAccum) (e : PhysicalModelEvent) : PosVelAccum :=
  if e.type = toProto .Position then accumPosition e acc
  else if e.type = toProto .Velocity then accumVelocity e acc
  else acc

/-- The spec-side description of the accumulation: fold the
position/velocity sub-values over the whole record set. -/
def accumOf (events : List PhysicalModelEvent) : PosVelAccum :=
  events.foldl accumOneEvent accumZero

/-- A concrete state with nonzero position and velocity (used by the
C10 witness to exhibit the overwrite). -/
def exState3 : ModelState :=
  { exState with
    params := updFun (updFun exState.params .Position
        ⟨.vec ⟨5, 6, 7⟩, .vec ⟨8, 9, 10⟩⟩) .Velocity
        ⟨.vec ⟨1, 1, 1⟩, .vec ⟨2, 2, 2⟩⟩ }

/-- A record list holding a single Temperature event (no Position, no
Velocity records). -/
def exEvents : List PhysicalModelEvent :=
  [{ type := toProto .Temperature, currentValue := some ⟨[30]⟩,
     targetValue := none }]

/-- The parameter-target section of the snapshot stream. -/
def encodeParamTargets (l : List PhysicalParameter) (s : ModelState) :
    List StreamItem :=
  l.flatMap (fun p => writeValueToStream (paramKind p) (s.params p).target)

/-- The sensor-override section of the snapshot stream. -/
def encodeSensorOverrides (l : List AndroidSensor) (s : ModelState) :
    List StreamItem :=
  l.flatMap (fun sn =>
    .i32 (if s.useOverride sn then 1 else 0) ::
    (if s.useOverride sn then
       writeValueToStream (sensorKind sn) (s.overrideVal sn)
     else []))

/-! ## Characterization lemmas for the basic operations -/

lemma physicalStateChanging_eq (s : ModelState) :
    physicalStateChanging s =
      ({ s with isPhysicalStateChanging := true },
       if !s.isPhysicalStateChanging && s.agentAttached then [.changing]
       else []) := by
  cases s with
  | mk params uo mid ov flag agent gts t d =>
    cases flag <;> cases agent <;> simp [physicalStateChanging]

lemma targetStateChanged_eq (s : ModelState) :
    targetStateChanged s =
      ({ s with useOverride := fun _ => false },
       if s.agentAttached then [.targetChanged] else []) := rfl

lemma physicalStateStabilized_eq (s : ModelState) :
    physicalStateStabilized s =
      ({ s with measurementId := fun sn => s.measurementId sn + 1,
                isPhysicalStateChanging := false },
       if s.agentAttached then [.stabilized] else []) := rfl

lemma setTargetInternal_eq (p : PhysicalParameter) (v : PValue)
    (mode : PhysicalInterpolation) (s : ModelState) :
    setTargetInternal p v mode s =
      ({ s with params := updFun s.params p
                  (applyTargetFacets mode v (s.params p)),
                useOverride := fun _ => false,
                isPhysicalStateChanging := true },
       (if !s.isPhysicalStateChanging && s.agentAttached then [.changing]
        else []) ++
       (if s.agentAttached then [.targetChanged] else [])) := by
  simp [setTargetInternal, physicalStateChanging_eq, targetStateChanged_eq]

lemma setOverride_eq (sn : AndroidSensor) (v : PValue) (s : ModelState) :
    setOverride sn v s =
      ({ s with useOverride := updFun s.useOverride sn true,
                measurementId := updFun s.measurementId sn
                  (s.measurementId sn + 1),
                overrideVal := updFun s.overrideVal sn v,
                isPhysicalStateChanging := true },
       if !s.isPhysicalStateChanging && s.agentAttached then [.changing]
       else []) := by
  simp [setOverride, physicalStateChanging_eq]

/-! ## C1, C2, C9, C3, C4 -/

/-- C1: for every sensor S and value v, immediately after
`setOverride(S, v)` a `getSensor(S)` call returns exactly v, and the
measurement id it reports is strictly greater than the id reported by a
`getSensor(S)` call made just before the `setOverride`, regardless of
leaf-model state and of whether the state is CHANGING or SETTLED. -/
theorem setOverride_getSensor_returns_value_with_fresh_id
    (euler : Quat → Vec3) (s : ModelState) (sn : AndroidSensor)
    (v : PValue) :
    (getSensor euler sn
       (setOverride sn v (getSensor euler sn s).2.2).1).1 = v ∧
    (getSensor euler sn s).2.1 <
      (getSensor euler sn
        (setOverride sn v (getSensor euler sn s).2.2).1).2.1 := by
  cases h1 : s.useOverride sn <;> cases h2 : s.isPhysicalStateChanging <;>
    simp [getSensor, getSensorValue, setOverride_eq, updFun, h1, h2]

/-- C2: after any `setTarget(P, v, mode)` completes, every sensor's
override-active flag is false, and a subsequent `getSensor` call returns
the physically derived value (the physical getter applied to the state
it reads), not a stored override. -/
theorem setTarget_clears_every_override (euler : Quat → Vec3)
    (p : PhysicalParameter) (v : PValue) (mode : PhysicalInterpolation)
    (s : ModelState) (sn : AndroidSensor) :
    (setTarget p v mode s).1.useOverride sn = false ∧
    (getSensor euler sn (setTarget p v mode s).1).1 =
      physicalGetterOf euler sn
        (getSensor euler sn (setTarget p v mode s).1).2.2 := by
  constructor
  · simp [setTarget, setTargetInternal_eq]
  · simp [getSensor, getSensorValue, setTarget, setTargetInternal_eq]

/-- C9: the physical (non-overridden) value of the uncalibrated
magnetometer equals that of the calibrated magnetometer in every state;
both are the conjugate (inverse) of the current body rotation quaternion
applied to the ambient magnetic field vector. -/
theorem magnetometer_calibrated_eq_uncalibrated (s : ModelState) :
    getPhysicalMagnetometer s = getPhysicalMagnetometerUncalibrated s ∧
    getPhysicalMagnetometer s =
      .vec (quatRotate (quatConjugate s.derived.rotation)
        (PValue.vec3OrZero (s.params .MagneticField).current)) :=
  ⟨rfl, rfl⟩

/-- C3 (code bug evidence): when the underlying `fopen` fails,
`recordGroundTruth` nevertheless returns 0 (success) and installs a
recording stream wrapping a null `FILE*`, because
`new StdioStream(...)` never yields a null pointer and therefore the
`!mGroundTruthStream.get()` error check can never fire.  The claim (and
the code's own dead error message) say a failed open must be reported
as a nonzero error with recording disabled. -/
theorem recordGroundTruth_openFailure_reports_success (s : ModelState) :
    (recordGroundTruth true none s).1 = 0 ∧
    (recordGroundTruth true none s).2.groundTruthStream = some ⟨none⟩ := by
  constructor <;> simp [recordGroundTruth, stopRecordGroundTruth]

/-- C4: a snapshot stream whose leading declared parameter count
exceeds `MAX_PHYSICAL_PARAMETERS` makes `snapshotLoad` return `-EIO`
with the model state held completely unchanged and no callback fired. -/
theorem snapshotLoad_excess_param_count_eio (s : ModelState) (n : Int)
    (rest : List StreamItem) (h : n > MAX_PHYSICAL_PARAMETERS) :
    snapshotLoad s (.i32 n :: rest) = (-eioErrno, s, []) := by
  simp [snapshotLoad, readBe32, h]

/-- Witness for C4 at parameter count 11 on a concrete state. -/
theorem snapshotLoad_excess_param_count_eio_witness :
    (11 : Int) > MAX_PHYSICAL_PARAMETERS ∧
    snapshotLoad exState [.i32 11] = (-eioErrno, exState, []) :=
  ⟨by decide, snapshotLoad_excess_param_count_eio exState 11 [] (by decide)⟩

/-! ## Measurement-id monotonicity (C8) -/

lemma idsLe_refl (s : ModelState) : idsLe s s := fun _ => le_refl _

lemma idsLe_trans {a b c : ModelState} (h1 : idsLe a b) (h2 : idsLe b c) :
    idsLe a c := fun sn => le_trans (h1 sn) (h2 sn)

lemma idsLe_of_eq {a b : ModelState}
    (h : b.measurementId = a.measurementId) : idsLe a b := by
  intro sn; rw [h]

lemma setTargetInternal_idsLe (p : PhysicalParameter) (v : PValue)
    (mode : PhysicalInterpolation) (s : ModelState) :
    idsLe s (setTargetInternal p v mode s).1 := by
  apply idsLe_of_eq; simp [setTargetInternal_eq]

lemma setOverride_idsLe (sn : AndroidSensor) (v : PValue) (s : ModelState) :
    idsLe s (setOverride sn v s).1 := by
  intro sn'
  by_cases h : sn' = sn <;> simp [setOverride_eq, updFun, h]

lemma getSensorValue_idsLe (sn : AndroidSensor)
    (g : ModelState → PValue) (s : ModelState) :
    idsLe s (getSensorValue sn g s).2.2 := by
  intro sn'
  by_cases h1 : s.useOverride sn = true
  · simp [getSensorValue, h1]
  · by_cases h2 : s.isPhysicalStateChanging = true <;>
      by_cases h3 : sn' = sn <;>
      simp [getSensorValue, h1, h2, updFun, h3]

lemma setCurrentTime_idsLe (t : Int) (i a : Bool) (s : ModelState) :
    idsLe s (setCurrentTime t i a s).1 := by
  intro sn
  unfold setCurrentTime
  dsimp only
  split
  · simp [physicalStateStabilized_eq]
  · simp

lemma replayEvent_idsLe (e : PhysicalModelEvent) (s : ModelState) :
    idsLe s (replayEvent e s).1 := by
  unfold replayEvent
  cases fromProto e.type with
  | none => exact idsLe_refl s
  | some p =>
    cases e.currentValue with
    | none =>
      cases e.targetValue with
      | none => exact idsLe_refl s
      | some v => simpa using setTargetInternal_idsLe p _ .smooth s
    | some v =>
      cases e.targetValue with
      | none => simpa using setTargetInternal_idsLe p _ .step s
      | some v2 =>
        simp only []
        exact idsLe_trans (setTargetInternal_idsLe p _ .step s)
          (setTargetInternal_idsLe p _ .smooth _)

lemma loadParams_idsLe (l : List PhysicalParameter) (st : List StreamItem)
    (s : ModelState) : idsLe s (loadParams l st s).2.1 := by
  induction l generalizing st s with
  | nil => exact idsLe_refl s
  | cons p ps ih =>
    simp only [loadParams]
    exact idsLe_trans (setTargetInternal_idsLe p _ .step s) (ih _ _)

lemma loadSensors_idsLe (l : List AndroidSensor) (st : List StreamItem)
    (s : ModelState) : idsLe s (loadSensors l st s).2.1 := by
  induction l generalizing st s with
  | nil => exact idsLe_refl s
  | cons sn sns ih =>
    simp only [loadSensors]
    split
    · exact idsLe_trans (setOverride_idsLe sn _ s) (ih _ _)
    · exact ih _ _

lemma snapshotLoad_idsLe (s : ModelState) (st : List StreamItem) :
    idsLe s (snapshotLoad s st).2.1 := by
  unfold snapshotLoad
  dsimp only
  split
  · exact idsLe_refl s
  · split
    · exact loadParams_idsLe _ _ s
    · exact idsLe_trans (loadParams_idsLe _ _ s) (loadSensors_idsLe _ _ _)

lemma loadStateScan_idsLe (events : List PhysicalModelEvent)
    (acc : PosVelAccum) (s : ModelState) :
    idsLe s (loadStateScan events acc s).2.1 := by
  induction events generalizing acc s with
  | nil => exact idsLe_refl s
  | cons e es ih =>
    simp only [loadStateScan]
    split
    · exact ih _ _
    · split
      · exact ih _ _
      · exact idsLe_trans (replayEvent_idsLe e s) (ih _ _)

lemma loadState_idsLe (events : List PhysicalModelEvent) (s : ModelState) :
    idsLe s (loadState events s).1 := by
  unfold loadState
  dsimp only
  have h1 := loadStateScan_idsLe events accumZero s
  split
  · exact idsLe_trans h1 (idsLe_trans (setTargetInternal_idsLe _ _ _ _)
      (idsLe_trans (setTargetInternal_idsLe _ _ _ _)
        (setTargetInternal_idsLe _ _ _ _)))
  · exact idsLe_trans h1 (idsLe_trans (setTargetInternal_idsLe _ _ _ _)
      (idsLe_trans (setTargetInternal_idsLe _ _ _ _)
        (setTargetInternal_idsLe _ _ _ _)))

/-- C8: across every public operation — time update, any target setter,
any sensor override, any sensor read, snapshot save/load, automation
state save/load, event replay — every sensor's measurement id after the
operation is at least its value before it: the per-sensor measurement id
never decreases. -/
theorem measurementId_never_decreases (euler : Quat → Vec3) (op : Op)
    (s : ModelState) (sn : AndroidSensor) :
    s.measurementId sn ≤ (step euler op s).1.measurementId sn := by
  cases op with
  | setCurrentTimeOp t i a => exact setCurrentTime_idsLe t i a s sn
  | setTargetOp p v mode => exact setTargetInternal_idsLe p v mode s sn
  | setOverrideOp sn' v => exact setOverride_idsLe sn' v s sn
  | getSensorOp sn' => exact getSensorValue_idsLe sn' _ s sn
  | snapshotSaveOp => exact le_refl _
  | snapshotLoadOp st => exact snapshotLoad_idsLe s st sn
  | saveStateOp => exact le_refl _
  | loadStateOp events => exact loadState_idsLe events s sn
  | replayEventOp e => exact replayEvent_idsLe e s sn

/-! ## Changing-callback accounting (C7) -/

lemma riseIndicator_self (s : ModelState) : riseIndicator s s = 0 := by
  unfold riseIndicator; cases s.isPhysicalStateChanging <;> simp

lemma changeSpecM_id (s : ModelState) : ChangeSpecM s (s, []) :=
  ⟨⟨rfl, fun _ => by simp [riseIndicator_self]⟩, Or.inl rfl⟩

lemma changeSpecM_comp {s1 s2 s3 : ModelState} {c1 c2 : List Callback}
    (h1 : ChangeSpecM s1 (s2, c1)) (h2 : ChangeSpecM s2 (s3, c2)) :
    ChangeSpecM s1 (s3, c1 ++ c2) := by
  obtain ⟨⟨ha1, hc1⟩, hm1⟩ := h1
  obtain ⟨⟨ha2, hc2⟩, hm2⟩ := h2
  refine ⟨⟨ha2.trans ha1, ?_⟩, ?_⟩
  · intro hag
    have hag2 : s2.agentAttached = true := ha1.trans hag
    have := hc1 hag
    have := hc2 hag2
    rw [List.count_append, hc1 hag, hc2 hag2]
    unfold riseIndicator
    cases hf1 : s1.isPhysicalStateChanging <;>
      cases hf2 : s2.isPhysicalStateChanging <;>
      cases hf3 : s3.isPhysicalStateChanging <;> simp_all
  · cases hf1 : s1.isPhysicalStateChanging <;>
      cases hf2 : s2.isPhysicalStateChanging <;>
      cases hf3 : s3.isPhysicalStateChanging <;> simp_all

lemma physicalStateChanging_changeSpec (s : ModelState) :
    ChangeSpecM s (physicalStateChanging s) := by
  rw [physicalStateChanging_eq]
  refine ⟨⟨rfl, fun hag => ?_⟩, Or.inr rfl⟩
  cases hf : s.isPhysicalStateChanging <;>
    simp [riseIndicator, hf, hag] <;> decide

lemma setTargetInternal_changeSpec (p : PhysicalParameter) (v : PValue)
    (mode : PhysicalInterpolation) (s : ModelState) :
    ChangeSpecM s (setTargetInternal p v mode s) := by
  rw [setTargetInternal_eq]
  refine ⟨⟨rfl, fun hag => ?_⟩, Or.inr rfl⟩
  cases hf : s.isPhysicalStateChanging <;>
    simp [riseIndicator, hf, hag, List.count_append] <;> decide

lemma setOverride_changeSpec (sn : AndroidSensor) (v : PValue)
    (s : ModelState) : ChangeSpecM s (setOverride sn v s) := by
  rw [setOverride_eq]
  refine ⟨⟨rfl, fun hag => ?_⟩, Or.inr rfl⟩
  cases hf : s.isPhysicalStateChanging <;>
    simp [riseIndicator, hf, hag] <;> decide

lemma replayEvent_changeSpec (e : PhysicalModelEvent) (s : ModelState) :
    ChangeSpecM s (replayEvent e s) := by
  unfold replayEvent
  cases fromProto e.type with
  | none => exact changeSpecM_id s
  | some p =>
    cases e.currentValue with
    | none =>
      cases e.targetValue with
      | none => exact changeSpecM_id s
      | some v => simpa using setTargetInternal_changeSpec p _ .smooth s
    | some v =>
      cases e.targetValue with
      | none => exact setTargetInternal_changeSpec p _ .step s
      | some v2 =>
        exact changeSpecM_comp (setTargetInternal_changeSpec p _ .step s)
          (setTargetInternal_changeSpec p _ .smooth _)

lemma loadParams_changeSpec (l : List PhysicalParameter)
    (st : List StreamItem) (s : ModelState) :
    ChangeSpecM s (loadParams l st s).2 := by
  induction l generalizing st s with
  | nil => exact changeSpecM_id s
  | cons p ps ih =>
    simp only [loadParams]
    exact changeSpecM_comp (setTargetInternal_changeSpec p _ .step s)
      (ih _ _)

lemma loadSensors_changeSpec (l : List AndroidSensor)
    (st : List StreamItem) (s : ModelState) :
    ChangeSpecM s (loadSensors l st s).2 := by
  induction l generalizing st s with
  | nil => exact changeSpecM_id s
  | cons sn sns ih =>
    simp only [loadSensors]
    split
    · exact changeSpecM_comp (setOverride_changeSpec sn _ s) (ih _ _)
    · exact ih _ _

lemma snapshotLoad_changeSpec (s : ModelState) (st : List StreamItem) :
    ChangeSpecM s (snapshotLoad s st).2 := by
  unfold snapshotLoad
  dsimp only
  split
  · exact changeSpecM_id s
  · split
    · exact loadParams_changeSpec _ _ s
    · exact changeSpecM_comp (loadParams_changeSpec _ _ s)
        (loadSensors_changeSpec _ _ _)

lemma loadStateScan_changeSpec (events : List PhysicalModelEvent)
    (acc : PosVelAccum) (s : ModelState) :
    ChangeSpecM s (loadStateScan events acc s).2 := by
  induction events generalizing acc s with
  | nil => exact changeSpecM_id s
  | cons e es ih =>
    simp only [loadStateScan]
    split
    · exact ih _ _
    · split
      · exact ih _ _
      · exact changeSpecM_comp (replayEvent_changeSpec e s) (ih _ _)

lemma loadState_changeSpec (events : List PhysicalModelEvent)
    (s : ModelState) : ChangeSpecM s (loadState events s) := by
  unfold loadState
  dsimp only
  split
  · exact changeSpecM_comp (changeSpecM_comp
      (changeSpecM_comp (loadStateScan_changeSpec events accumZero s)
        (setTargetInternal_changeSpec _ _ _ _))
      (setTargetInternal_changeSpec _ _ _ _))
      (setTargetInternal_changeSpec _ _ _ _)
  · exact changeSpecM_comp (changeSpecM_comp
      (changeSpecM_comp (loadStateScan_changeSpec events accumZero s)
        (setTargetInternal_changeSpec _ _ _ _))
      (setTargetInternal_changeSpec _ _ _ _))
      (setTargetInternal_changeSpec _ _ _ _)

lemma setCurrentTime_changeSpec (t : Int) (i a : Bool) (s : ModelState) :
    ChangeSpec s (setCurrentTime t i a s) := by
  unfold setCurrentTime
  dsimp only
  split
  · rw [physicalStateStabilized_eq]
    refine ⟨rfl, fun hag => ?_⟩
    simp [riseIndicator, hag]
    decide
  · refine ⟨rfl, fun hag => ?_⟩
    cases hf : s.isPhysicalStateChanging <;> simp [riseIndicator, hf]

lemma getSensorValue_changeSpec (sn : AndroidSensor)
    (g : ModelState → PValue) (s : ModelState) :
    ChangeSpec s ((getSensorValue sn g s).2.2, []) := by
  by_cases h1 : s.useOverride sn = true
  · simp only [getSensorValue, h1]
    exact (changeSpecM_id s).1
  · by_cases h2 : s.isPhysicalStateChanging = true <;>
      refine ⟨by simp [getSensorValue, h1, h2], fun hag => ?_⟩ <;>
      simp [getSensorValue, h1, h2, riseIndicator]

lemma step_changeSpec (euler : Quat → Vec3) (op : Op) (s : ModelState) :
    ChangeSpec s (step euler op s) := by
  cases op with
  | setCurrentTimeOp t i a => exact setCurrentTime_changeSpec t i a s
  | setTargetOp p v mode => exact (setTargetInternal_changeSpec p v mode s).1
  | setOverrideOp sn v => exact (setOverride_changeSpec sn v s).1
  | getSensorOp sn => exact getSensorValue_changeSpec sn _ s
  | snapshotSaveOp => exact (changeSpecM_id s).1
  | snapshotLoadOp st => exact (snapshotLoad_changeSpec s st).1
  | saveStateOp => exact (changeSpecM_id s).1
  | loadStateOp events => exact (loadState_changeSpec events s).1
  | replayEventOp e => exact (replayEvent_changeSpec e s).1

/-- C7: with an observer attached, across any sequence of public
operations the number of "changing" callbacks fired equals the number
of SETTLED-to-CHANGING transitions of the stability flag along the run:
in particular an operation triggering the begin-change path while the
state is already CHANGING fires no further "changing" callback. -/
theorem changing_callback_once_per_transition (euler : Quat → Vec3)
    (ops : List Op) (s : ModelState) (h : s.agentAttached = true) :
    ((run euler ops s).2).count .changing =
      risesFrom s.isPhysicalStateChanging (flagTrace euler ops s) := by
  induction ops generalizing s with
  | nil => simp [run, flagTrace, risesFrom]
  | cons op ops ih =>
    have hs := step_changeSpec euler op s
    have hag1 : (step euler op s).1.agentAttached = true := by
      rw [hs.1]; exact h
    simp only [run, flagTrace, risesFrom, List.count_append]
    rw [hs.2 h, ih _ hag1]
    unfold riseIndicator
    rfl

/-- Witness for C7: from a settled state with an attached agent, a
Smooth temperature target followed by a light-sensor override (both
begin-change triggers) fires the changing callback exactly once. -/
theorem changing_callback_once_witness :
    exState.agentAttached = true ∧
    ((run eulerZero
        [.setTargetOp .Temperature (.scalar 25) .smooth,
         .setOverrideOp .Light (.scalar 3)] exState).2).count .changing = 1 :=
  ⟨rfl,
   (changing_callback_once_per_transition eulerZero
      [.setTargetOp .Temperature (.scalar 25) .smooth,
       .setOverrideOp .Light (.scalar 3)] exState rfl).trans (by decide)⟩

/-! ## Automation loadState ordering (C6, C10) -/

lemma loadStateScan_decomp (events : List PhysicalModelEvent)
    (acc : PosVelAccum) (s : ModelState) :
    loadStateScan events acc s =
      (events.foldl accumOneEvent acc,
       applyOtherEvents (events.filter (fun e => !isPosOrVel e)) s) := by
  induction events generalizing acc s with
  | nil => rfl
  | cons e es ih =>
    by_cases hp : e.type = toProto .Position
    · simp [loadStateScan, hp, accumOneEvent, isPosOrVel, ih,
        List.filter_cons]
    · by_cases hv : e.type = toProto .Velocity
      · simp [loadStateScan, hp, hv, accumOneEvent, isPosOrVel, ih,
          List.filter_cons, toProto]
      · simp [loadStateScan, hp, hv, accumOneEvent, isPosOrVel, ih,
          List.filter_cons, applyOtherEvents]

/-- C6: `loadState` applies every non-Position, non-Velocity record
immediately in encounter order through `replayEvent`, while the
Position/Velocity current and target sub-values are accumulated over
the whole record set and applied only after the scan, in this exact
order: current position in Step mode, then current velocity in Step
mode, then target velocity in Smooth mode when the accumulated target
velocity is nonzero, else target position in Smooth mode. -/
theorem loadState_applies_events_in_documented_order
    (events : List PhysicalModelEvent) (s : ModelState) :
    loadState events s =
      (let acc := accumOf events
       let r1 := applyOtherEvents
         (events.filter (fun e => !isPosOrVel e)) s
       let r2 := setTargetInternal .Position (.vec acc.currentPosition)
         .step r1.1
       let r3 := setTargetInternal .Velocity (.vec acc.currentVelocity)
         .step r2.1
       if acc.targetVelocity ≠ vzero then
         let r4 := setTargetInternal .Velocity (.vec acc.targetVelocity)
           .smooth r3.1
         (r4.1, r1.2 ++ r2.2 ++ r3.2 ++ r4.2)
       else
         let r4 := setTargetInternal .Position (.vec acc.targetPosition)
           .smooth r3.1
         (r4.1, r1.2 ++ r2.2 ++ r3.2 ++ r4.2)) := by
  unfold loadState accumOf
  rw [loadStateScan_decomp]

lemma foldl_accum_nonposvel (events : List PhysicalModelEvent)
    (acc : PosVelAccum)
    (h : events.all (fun e => !isPosOrVel e) = true) :
    events.foldl accumOneEvent acc = acc := by
  induction events generalizing acc with
  | nil => rfl
  | cons e es ih =>
    simp only [List.all_cons, Bool.and_eq_true] at h
    have he : isPosOrVel e = false := by
      cases hpe : isPosOrVel e
      · rfl
      · rw [hpe] at h; exact absurd h.1 (by simp)
    have hp : ¬ e.type = toProto .Position := by
      intro hc
      simp [isPosOrVel, hc] at he
    have hv : ¬ e.type = toProto .Velocity := by
      intro hc
      simp [isPosOrVel, hc] at he
    simp only [List.foldl_cons, accumOneEvent, if_neg hp, if_neg hv]
    exact ih acc h.2

/-- C10: loading an automation state whose record list contains no
Position and no Velocity event still Step-sets the current position and
velocity to zero and Smooth-sets the target position to zero: both
parameters' current and target facets are overwritten with (0,0,0)
rather than left unchanged. -/
theorem loadState_without_posvel_zeroes_position_velocity
    (events : List PhysicalModelEvent) (s : ModelState)
    (h : events.all (fun e => !isPosOrVel e) = true) :
    (loadState events s).1.params .Position = ⟨.vec vzero, .vec vzero⟩ ∧
    (loadState events s).1.params .Velocity = ⟨.vec vzero, .vec vzero⟩ := by
  unfold loadState
  dsimp only
  rw [loadStateScan_decomp, foldl_accum_nonposvel events accumZero h]
  constructor <;>
    simp [setTargetInternal_eq, updFun, applyTargetFacets, accumZero]

/-- Witness for C10: loading the Temperature-only record list over a
state holding nonzero position and velocity zeroes both. -/
theorem loadState_without_posvel_witness :
    exEvents.all (fun e => !isPosOrVel e) = true ∧
    ((loadState exEvents exState3).1.params .Position =
        ⟨.vec vzero, .vec vzero⟩ ∧
     (loadState exEvents exState3).1.params .Velocity =
        ⟨.vec vzero, .vec vzero⟩) :=
  ⟨by decide,
   loadState_without_posvel_zeroes_position_velocity exEvents exState3
     (by decide)⟩

/-! ## Snapshot round trip (C5) -/

lemma snapshotSave_sections (s : ModelState) :
    snapshotSave s =
      .i32 MAX_PHYSICAL_PARAMETERS ::
      (encodeParamTargets paramOrder s ++
       .i32 MAX_SENSORS :: encodeSensorOverrides sensorOrder s) := rfl

lemma readValue_writeValue (k : VKind) (pv : PValue)
    (h : shapeOk k pv = true) (rest : List StreamItem) :
    readValueFromStream k (writeValueToStream k pv ++ rest) = (pv, rest) := by
  cases k <;> cases pv <;>
    simp_all [shapeOk, writeValueToStream, readValueFromStream, readFloat]

lemma loadParams_save (l : List PhysicalParameter) (rest : List StreamItem)
    (s : ModelState) (s0 : ModelState)
    (h : ∀ p ∈ l, shapeOk (paramKind p) (s.params p).target = true) :
    (loadParams l (encodeParamTargets l s ++ rest) s0).1 = rest ∧
    (∀ q, (loadParams l (encodeParamTargets l s ++ rest) s0).2.1.params q =
      if q ∈ l then ⟨(s.params q).target, (s.params q).target⟩
      else s0.params q) ∧
    (∀ sn, (loadParams l (encodeParamTargets l s ++ rest) s0).2.1.useOverride
        sn = if l.isEmpty then s0.useOverride sn else false) ∧
    (loadParams l (encodeParamTargets l s ++ rest) s0).2.1.measurementId
      = s0.measurementId ∧
    (loadParams l (encodeParamTargets l s ++ rest) s0).2.1.overrideVal
      = s0.overrideVal := by
  induction l generalizing s0 with
  | nil => simp [loadParams, encodeParamTargets]
  | cons p ps ih =>
    have hsh : shapeOk (paramKind p) (s.params p).target = true :=
      h p (List.mem_cons_self p ps)
    have hps : ∀ q ∈ ps, shapeOk (paramKind q) (s.params q).target = true :=
      fun q hq => h q (List.mem_cons_of_mem p hq)
    simp only [encodeParamTargets, List.flatMap_cons, List.append_assoc,
      loadParams]
    rw [readValue_writeValue _ _ hsh]
    have hfields := setTargetInternal_eq p (s.params p).target .step s0
    set s1 := (setTargetInternal p (s.params p).target .step s0).1 with hs1
    have h1params : s1.params =
        updFun s0.params p ⟨(s.params p).target, (s.params p).target⟩ := by
      rw [hs1, hfields]; simp [applyTargetFacets]
    have h1uo : s1.useOverride = fun _ => false := by rw [hs1, hfields]
    have h1mid : s1.measurementId = s0.measurementId := by rw [hs1, hfields]
    have h1ov : s1.overrideVal = s0.overrideVal := by rw [hs1, hfields]
    obtain ⟨ihst, ihp, ihu, ihm, ihov⟩ := ih s1 hps
    refine ⟨?_, ?_, ?_, ?_, ?_⟩
    · simpa [encodeParamTargets] using ihst
    · intro q
      have := ihp q
      simp only [encodeParamTargets] at this
      rw [this]
      by_cases hq : q ∈ ps
      · simp [hq, List.mem_cons]
      · by_cases hqp : q = p
        · subst hqp
          simp [hq, h1params, updFun]
        · simp [hq, hqp, h1params, updFun, List.mem_cons]
    · intro sn
      have := ihu sn
      simp only [encodeParamTargets] at this
      rw [this]
      cases hps' : ps.isEmpty <;> simp [h1uo, hps']
    · have := ihm
      simp only [encodeParamTargets] at this
      rw [this, h1mid]
    · have := ihov
      simp only [encodeParamTargets] at this
      rw [this, h1ov]

lemma loadSensors_save (l : List AndroidSensor) (rest : List StreamItem)
    (s : ModelState) (s0 : ModelState)
    (h : ∀ sn ∈ l, shapeOk (sensorKind sn) (s.overrideVal sn) = true) :
    (loadSensors l (encodeSensorOverrides l s ++ rest) s0).1 = rest ∧
    (∀ sn, (loadSensors l (encodeSensorOverrides l s ++ rest) s0).2.1.useOverride
        sn = if sn ∈ l ∧ s.useOverride sn = true then true
             else s0.useOverride sn) ∧
    (∀ sn, (loadSensors l (encodeSensorOverrides l s ++ rest) s0).2.1.overrideVal
        sn = if sn ∈ l ∧ s.useOverride sn = true then s.overrideVal sn
             else s0.overrideVal sn) ∧
    (loadSensors l (encodeSensorOverrides l s ++ rest) s0).2.1.params
      = s0.params := by
  induction l generalizing s0 with
  | nil => simp [loadSensors, encodeSensorOverrides]
  | cons sn sns ih =>
    have hsh : shapeOk (sensorKind sn) (s.overrideVal sn) = true :=
      h sn (List.mem_cons_self sn sns)
    have hsns : ∀ t ∈ sns, shapeOk (sensorKind t) (s.overrideVal t) = true :=
      fun t ht => h t (List.mem_cons_of_mem sn ht)
    cases hu : s.useOverride sn with
    | false =>
      simp only [encodeSensorOverrides, List.flatMap_cons, hu, if_neg,
        Bool.false_eq_true, not_false_eq_true, List.nil_append,
        List.cons_append, loadSensors, readBe32]
      obtain ⟨ihst, ihu, ihov, ihp⟩ := ih s0 hsns
      simp only [encodeSensorOverrides] at ihst ihu ihov ihp
      refine ⟨by simpa using ihst, ?_, ?_, by simpa using ihp⟩
      · intro t
        rw [show (if (0 : Int) ≠ 0 then
            (let rv := readValueFromStream (sensorKind sn)
              (sns.flatMap (fun x =>
                StreamItem.i32 (if s.useOverride x then 1 else 0) ::
                (if s.useOverride x then
                  writeValueToStream (sensorKind x) (s.overrideVal x)
                 else [])) ++ rest)
             let r1 := setOverride sn rv.1 s0
             let rr := loadSensors sns rv.2 r1.1
             (rr.1, rr.2.1, r1.2 ++ rr.2.2))
          else loadSensors sns (sns.flatMap (fun x =>
            StreamItem.i32 (if s.useOverride x then 1 else 0) ::
            (if s.useOverride x then
              writeValueToStream (sensorKind x) (s.overrideVal x)
             else [])) ++ rest) s0) = loadSensors sns (sns.flatMap (fun x =>
            StreamItem.i32 (if s.useOverride x then 1 else 0) ::
            (if s.useOverride x then
              writeValueToStream (sensorKind x) (s.overrideVal x)
             else [])) ++ rest) s0 from by simp]
        rw [ihu t]
        by_cases ht : t ∈ sns
        · simp [ht, List.mem_cons]
        · by_cases hts : t = sn
          · subst hts
            simp [ht, hu, List.mem_cons]
          · simp [ht, hts, List.mem_cons]
      · intro t
        rw [show (if (0 : Int) ≠ 0 then
            (let rv := readValueFromStream (sensorKind sn)
              (sns.flatMap (fun x =>
                StreamItem.i32 (if s.useOverride x then 1 else 0) ::
                (if s.useOverride x then
                  writeValueToStream (sensorKind x) (s.overrideVal x)
                 else [])) ++ rest)
             let r1 := setOverride sn rv.1 s0
             let rr := loadSensors sns rv.2 r1.1
             (rr.1, rr.2.1, r1.2 ++ rr.2.2))
          else loadSensors sns (sns.flatMap (fun x =>
            StreamItem.i32 (if s.useOverride x then 1 else 0) ::
            (if s.useOverride x then
              writeValueToStream (sensorKind x) (s.overrideVal x)
             else [])) ++ rest) s0) = loadSensors sns (sns.flatMap (fun x =>
            StreamItem.i32 (if s.useOverride x then 1 else 0) ::
            (if s.useOverride x then
              writeValueToStream (sensorKind x) (s.overrideVal x)
             else [])) ++ rest) s0 from by simp]
        rw [ihov t]
        by_cases ht : t ∈ sns
        · simp [ht, List.mem_cons]
        · by_cases hts : t = sn
          · subst hts
            simp [ht, hu, List.mem_cons]
          · simp [ht, hts, List.mem_cons]
    | true =>
      simp only [encodeSensorOverrides, List.flatMap_cons, hu, if_pos,
        List.cons_append, List.append_assoc, loadSensors, readBe32]
      rw [if_pos (by norm_num)]
      rw [readValue_writeValue _ _ hsh]
      have hfields := setOverride_eq sn (s.overrideVal sn) s0
      set s1 := (setOverride sn (s.overrideVal sn) s0).1 with hs1
      have h1uo : s1.useOverride = updFun s0.useOverride sn true := by
        rw [hs1, hfields]
      have h1ov : s1.overrideVal = updFun s0.overrideVal sn
          (s.overrideVal sn) := by rw [hs1, hfields]
      have h1p : s1.params = s0.params := by rw [hs1, hfields]
      obtain ⟨ihst, ihu, ihov, ihp⟩ := ih s1 hsns
      simp only [encodeSensorOverrides] at ihst ihu ihov ihp
      refine ⟨by simpa using ihst, ?_, ?_, by rw [ihp, h1p]⟩
      · intro t
        rw [ihu t]
        by_cases ht : t ∈ sns
        · cases hut : s.useOverride t with
          | true => simp [ht, hut]
          | false =>
            by_cases htn : t = sn
            · subst htn; rw [hut] at hu; exact absurd hu (by simp)
            · simp [ht, hut, h1uo, updFun, htn]
        · by_cases hts : t = sn
          · subst hts
            simp [ht, hu, h1uo, updFun, List.mem_cons]
          · simp [ht, hts, h1uo, updFun, List.mem_cons]
      · intro t
        rw [ihov t]
        by_cases ht : t ∈ sns
        · cases hut : s.useOverride t with
          | true => simp [ht, hut]
          | false =>
            by_cases htn : t = sn
            · subst htn; rw [hut] at hu; exact absurd hu (by simp)
            · simp [ht, hut, h1ov, updFun, htn]
        · by_cases hts : t = sn
          · subst hts
            simp [ht, hu, h1ov, updFun, List.mem_cons]
          · simp [ht, hts, h1ov, updFun, List.mem_cons]

lemma mem_paramOrder (p : PhysicalParameter) : p ∈ paramOrder := by
  cases p <;> simp [paramOrder]

lemma mem_sensorOrder (sn : AndroidSensor) : sn ∈ sensorOrder := by
  cases sn <;> simp [sensorOrder]

/-- C5: saving a snapshot and loading that same stream back into the
model succeeds (returns 0) and reproduces every parameter's target
value and every sensor's override flag and override value exactly as
they were at save time. -/
theorem snapshot_roundtrip_restores_targets_and_overrides
    (s : ModelState) (h : wellFormed s = true) :
    (snapshotLoad s (snapshotSave s)).1 = 0 ∧
    targetsMatch (snapshotLoad s (snapshotSave s)).2.1 s = true ∧
    overrideFlagsMatch (snapshotLoad s (snapshotSave s)).2.1 s = true ∧
    overrideValuesMatch (snapshotLoad s (snapshotSave s)).2.1 s = true := by
  simp only [wellFormed, Bool.and_eq_true, List.all_eq_true] at h
  obtain ⟨hparam, hsens⟩ := h
  have hparamT : ∀ p ∈ paramOrder,
      shapeOk (paramKind p) (s.params p).target = true :=
    fun p hp => (hparam p hp).2
  obtain ⟨hst1, hp1, hu1, hm1, hov1⟩ := loadParams_save paramOrder
    (.i32 MAX_SENSORS :: encodeSensorOverrides sensorOrder s) s s hparamT
  obtain ⟨hst2, hu2, hov2, hp2⟩ := loadSensors_save sensorOrder [] s
    ((loadParams paramOrder (encodeParamTargets paramOrder s ++
      .i32 MAX_SENSORS :: encodeSensorOverrides sensorOrder s) s).2.1) hsens
  simp only [List.append_nil] at hst2 hu2 hov2 hp2
  have hload : snapshotLoad s (snapshotSave s) =
      (0,
       (loadSensors sensorOrder (encodeSensorOverrides sensorOrder s)
         ((loadParams paramOrder (encodeParamTargets paramOrder s ++
           .i32 MAX_SENSORS :: encodeSensorOverrides sensorOrder s) s).2.1)).2.1,
       (loadParams paramOrder (encodeParamTargets paramOrder s ++
         .i32 MAX_SENSORS :: encodeSensorOverrides sensorOrder s) s).2.2 ++
       (loadSensors sensorOrder (encodeSensorOverrides sensorOrder s)
         ((loadParams paramOrder (encodeParamTargets paramOrder s ++
           .i32 MAX_SENSORS :: encodeSensorOverrides sensorOrder s) s).2.1)).2.2) := by
    rw [snapshotSave_sections]
    unfold snapshotLoad
    dsimp only
    simp only [readBe32]
    rw [if_neg (by norm_num [MAX_PHYSICAL_PARAMETERS])]
    rw [show MAX_PHYSICAL_PARAMETERS.toNat = 10 from rfl,
        show paramOrder.take 10 = paramOrder from rfl]
    rw [hst1]
    simp only [readBe32]
    rw [if_neg (by norm_num [MAX_SENSORS])]
    rw [show MAX_SENSORS.toNat = 11 from rfl,
        show sensorOrder.take 11 = sensorOrder from rfl]
  rw [hload]
  refine ⟨rfl, ?_, ?_, ?_⟩
  · simp only [targetsMatch, List.all_eq_true]
    intro p hp
    rw [hp2, hp1 p, if_pos (mem_paramOrder p)]
    simp
  · simp only [overrideFlagsMatch, List.all_eq_true]
    intro sn hsn
    rw [hu2 sn]
    cases huo : s.useOverride sn with
    | true => simp [mem_sensorOrder sn, huo]
    | false =>
      rw [hu1 sn]
      simp [huo]
  · simp only [overrideValuesMatch, List.all_eq_true]
    intro sn hsn
    rw [hov2 sn]
    cases huo : s.useOverride sn with
    | true => simp [mem_sensorOrder sn, huo]
    | false =>
      rw [hov1]
      simp [huo]

/-- Witness for C5 on a concrete state holding a nonzero temperature
target and an active accelerometer override. -/
theorem snapshot_roundtrip_witness :
    wellFormed exState2 = true ∧
    ((snapshotLoad exState2 (snapshotSave exState2)).1 = 0 ∧
     targetsMatch (snapshotLoad exState2 (snapshotSave exState2)).2.1
       exState2 = true ∧
     overrideFlagsMatch (snapshotLoad exState2 (snapshotSave exState2)).2.1
       exState2 = true ∧
     overrideValuesMatch (snapshotLoad exState2 (snapshotSave exState2)).2.1
       exState2 = true) :=
  ⟨by decide,
   snapshot_roundtrip_restores_targets_and_overrides exState2 (by decide)⟩
